import Mathlib

/-!
# Verification of `MySQL_Remote_Backup/mysql-remote-backup.py`

A shallow embedding of the backup script.  The script reads configuration
from the process environment (`DatabaseBackup.__init__`), builds a
`mysqldump` command string (`create_backup_command`), generates a
timestamped filename (`generate_backup_filename`), opens an SSH session
(`create_ssh_client`), runs the command remotely, downloads the dump over
SFTP, optionally deletes the remote copy, and closes both handles in a
`finally` block (`backup`).

External effects (filesystem existence checks, the SSH/SFTP collaborator,
the remote command's exit status) are modelled by a `World` record of
outcomes, and the orchestration is embedded as a pure function producing
the trace of external requests it issues (`Event`), the run's result, and
the local artifacts the run wrote.
-/

namespace MySQLRemoteBackup

/-- Python truthiness of an optional string: `None` and `""` are falsy.
Embeds conditions such as `if self.db_password:` and `if not self.ssh_key_path`. -/
def pyTruthy : Option String → Bool
  | none => false
  | some s => !(s == "")

/-- Rendering of an optional string inside a Python f-string:
`None` prints as `"None"`. -/
def pyStr : Option String → String
  | none => "None"
  | some s => s

/-- The configuration snapshot built by `DatabaseBackup.__init__` from
`os.getenv`.  Fields with a default are plain strings; required fields with
no default stay `Option String` (they are `None` when the variable is
unset, exactly as in the Python object). -/
structure Config where
  ssh_host : Option String
  ssh_port : Int
  ssh_user : Option String
  ssh_key_path : Option String
  db_host : String
  db_port : String
  db_name : Option String
  db_user : Option String
  db_password : Option String
  remote_backup_dir : String
  local_backup_dir : String
  deriving Repr, DecidableEq

/-- Errors raised on the run's exit paths.  The script raises a `ValueError`
for missing key material and bare `Exception`s elsewhere; constructors are
named by the operation that raised, following the spec's §7 taxonomy for
the latter. -/
inductive BErr where
  | valueError (msg : String)
  | connectionError (msg : String)
  | backupCommandError (msg : String)
  | transferChannelError (msg : String)
  | transferError (msg : String)
  | remoteCleanupError (msg : String)
  | reportError (msg : String)
  deriving Repr, DecidableEq

/-- Spec taxonomy: the `ConfigurationError` of §7 corresponds to the
`ValueError` the script raises for missing/non-existent key material. -/
def BErr.isConfigurationError : BErr → Bool
  | .valueError _ => true
  | _ => false

/-- External requests the orchestrator issues, in program order. -/
inductive Event where
  | connect
  | execCommand (cmd : String)
  | sftpOpen
  | sftpGet (remote localp : String)
  | sftpRemove (path : String)
  | sftpClose
  | sshClose
  deriving Repr, DecidableEq

/-- Outcomes of the external collaborators for one run: the filesystem's
answer to `os.path.exists`, and success/failure of each SSH/SFTP/local
operation the script performs. -/
structure World where
  fs_exists : String → Bool
  connect_ok : Bool
  exit_status : Int
  stderr_text : String
  open_sftp_ok : Bool
  get_ok : Bool
  remove_ok : Bool
  getsize_ok : Bool
  file_size : Nat

/-- Embeds `os.getenv(key, default)` over an environment snapshot. -/
def getenvD (env : String → Option String) (key default : String) : String :=
  (env key).getD default

/-- Embeds `int(os.getenv('SSH_PORT', 22))`: the default is already an `int`;
a present value goes through `int(...)`, which fails on non-numeric text. -/
def parsePort : Option String → Option Int
  | none => some 22
  | some s => s.toInt?

/-- Embeds `DatabaseBackup.__init__`: reads every configuration value, applying
defaults; the only failure it can raise is `int()` on a bad `SSH_PORT`
(the local `mkdir` side effect is not modelled).  It performs no
presence/emptiness validation of the required values. -/
def databaseBackupInit (env : String → Option String) : Except BErr Config :=
  match parsePort (env "SSH_PORT") with
  | none => .error (.valueError "invalid literal for int() with base 10")
  | some p =>
      .ok { ssh_host := env "SSH_HOST"
            ssh_port := p
            ssh_user := env "SSH_USER"
            ssh_key_path := env "SSH_KEY_PATH"
            db_host := getenvD env "DB_HOST" "localhost"
            db_port := getenvD env "DB_PORT" "3306"
            db_name := env "DB_NAME"
            db_user := env "DB_USER"
            db_password := env "DB_PASSWORD"
            remote_backup_dir := getenvD env "REMOTE_BACKUP_DIR" "/tmp"
            local_backup_dir := getenvD env "LOCAL_BACKUP_DIR" "./backups" }

/-- Embeds `DatabaseBackup.create_backup_command`: builds the `mysqldump` command
string exactly as the Python f-strings concatenate it, and the remote path
`<remote_backup_dir>/<backup_file>`. -/
def create_backup_command (self : Config) (backup_file : String) : String × String :=
  let remote_path := self.remote_backup_dir ++ "/" ++ backup_file
  let cmd := "mysqldump -h " ++ self.db_host ++ " -P " ++ self.db_port
      ++ " -u " ++ pyStr self.db_user ++ " "
  let cmd := if pyTruthy self.db_password
      then cmd ++ ("-p'" ++ pyStr self.db_password ++ "' ") else cmd
  let cmd := cmd ++ (pyStr self.db_name ++ " > " ++ remote_path)
  (cmd, remote_path)

/-- A `datetime.datetime` value, as produced by `datetime.now()`. -/
structure PyDateTime where
  year : Nat
  month : Nat
  day : Nat
  hour : Nat
  minute : Nat
  second : Nat
  deriving Repr, DecidableEq

/-- Decimal digits of `n`, most significant first (the digit list that
`Nat.repr`, i.e. Python's `str`/`%d` rendering, produces). -/
def decDigits (n : Nat) : List Char :=
  if h : n < 10 then [Nat.digitChar n]
  else
    have : n / 10 < n := Nat.div_lt_self (by omega) (by omega)
    decDigits (n / 10) ++ [Nat.digitChar (n % 10)]

/-- Embeds `strftime`-style two-digit zero-padded fields (`%m`, `%d`, `%H`, `%M`, `%S`). -/
def pad2 (n : Nat) : String :=
  if n < 10 then "0" ++ Nat.repr n else Nat.repr n

/-- Embeds `datetime.strftime('%Y%m%d_%H%M%S')`.  `%Y` is the plain decimal year
(zero-padding below 1000 is platform dependent and irrelevant for clock
years, which the theorems constrain to four digits). -/
def strftime_Ymd_HMS (t : PyDateTime) : String :=
  (Nat.repr t.year ++ pad2 t.month ++ pad2 t.day) ++ "_"
    ++ (pad2 t.hour ++ pad2 t.minute ++ pad2 t.second)

/-- Embeds `DatabaseBackup.generate_backup_filename`:
`f"{self.db_name}_backup_{timestamp}.sql"` with
`timestamp = datetime.now().strftime('%Y%m%d_%H%M%S')`. -/
def generate_backup_filename (self : Config) (now : PyDateTime) : String :=
  pyStr self.db_name ++ "_backup_" ++ strftime_Ymd_HMS now ++ ".sql"

/-- POSIX `os.path.join(a, b)`: an absolute second component replaces the
first; otherwise the parts are joined with `/` unless the first is empty or
already ends in `/`. -/
def pyPathJoin (a b : String) : String :=
  if b.startsWith "/" then b
  else if a = "" || a.endsWith "/" then a ++ b
  else a ++ "/" ++ b

/-- Python's `str.lower()` (character-wise lowercasing).  Defined by
structural recursion over the character list so that it evaluates inside
the kernel; it agrees with `String.toLower`, which maps the same
`Char.toLower` over the string. -/
def strLower (s : String) : String :=
  ⟨s.data.map Char.toLower⟩

/-- Embeds `os.getenv('REMOVE_REMOTE_BACKUP', 'true').lower() == 'true'`,
read inside `backup` at cleanup time. -/
def removeRemoteFlag (env : String → Option String) : Bool :=
  strLower (getenvD env "REMOVE_REMOTE_BACKUP" "true") == "true"

/-- Embeds `DatabaseBackup.create_ssh_client`: raises
`ValueError(f"SSH key not found at: {path}")` when the key path is falsy or
does not exist — before any connection attempt — and otherwise attempts the
connection, which succeeds or fails according to the world.  The returned
trace records the connection attempt. -/
def create_ssh_client (self : Config) (w : World) :
    Except BErr Unit × List Event :=
  if !pyTruthy self.ssh_key_path || !w.fs_exists (self.ssh_key_path.getD "") then
    (.error (.valueError ("SSH key not found at: " ++ pyStr self.ssh_key_path)), [])
  else if w.connect_ok then
    (.ok (), [Event.connect])
  else
    (.error (.connectionError "Error connecting to SSH server"), [Event.connect])

/-- Result of one `backup` run: the raised-or-returned value, the trace of
external requests, the local artifacts written by the run, and whether each
handle variable (`ssh_client`, `sftp_client`) was non-`None` when the
`finally` block ran. -/
structure RunResult where
  result : Except BErr String
  events : List Event
  localFiles : List String
  sshOpened : Bool
  sftpOpened : Bool

/-- The `try` block of `DatabaseBackup.backup` (everything before the
`finally`), step for step: connect, run the dump command, check its exit
status, open SFTP, download, optionally delete the remote file, report the
size.  Any failing step raises, skipping the rest. -/
def backupBody (self : Config) (env : String → Option String) (w : World)
    (backup_file local_path : String) : RunResult :=
  let sc := create_ssh_client self w
  match sc.1 with
  | .error e =>
      { result := .error e, events := sc.2, localFiles := [],
        sshOpened := false, sftpOpened := false }
  | .ok _ =>
      let backup_cmd := (create_backup_command self backup_file).1
      let remote_path := (create_backup_command self backup_file).2
      let evs := sc.2 ++ [Event.execCommand backup_cmd]
      if w.exit_status ≠ 0 then
        { result := .error (.backupCommandError
              ("Backup command failed: " ++ w.stderr_text)),
          events := evs, localFiles := [], sshOpened := true, sftpOpened := false }
      else
        let evs := evs ++ [Event.sftpOpen]
        if !w.open_sftp_ok then
          { result := .error (.transferChannelError "open_sftp failed"),
            events := evs, localFiles := [], sshOpened := true, sftpOpened := false }
        else
          let evs := evs ++ [Event.sftpGet remote_path local_path]
          if !w.get_ok then
            { result := .error (.transferError
                  ("get " ++ remote_path ++ " -> " ++ local_path ++ " failed")),
              events := evs, localFiles := [], sshOpened := true, sftpOpened := true }
          else
            if removeRemoteFlag env then
              let evs := evs ++ [Event.sftpRemove remote_path]
              if !w.remove_ok then
                { result := .error (.remoteCleanupError
                      ("remove " ++ remote_path ++ " failed")),
                  events := evs, localFiles := [local_path],
                  sshOpened := true, sftpOpened := true }
              else if !w.getsize_ok then
                { result := .error (.reportError ("getsize " ++ local_path ++ " failed")),
                  events := evs, localFiles := [local_path],
                  sshOpened := true, sftpOpened := true }
              else
                { result := .ok local_path, events := evs, localFiles := [local_path],
                  sshOpened := true, sftpOpened := true }
            else if !w.getsize_ok then
              { result := .error (.reportError ("getsize " ++ local_path ++ " failed")),
                events := evs, localFiles := [local_path],
                sshOpened := true, sftpOpened := true }
            else
              { result := .ok local_path, events := evs, localFiles := [local_path],
                sshOpened := true, sftpOpened := true }

/-- Embeds `DatabaseBackup.backup`: computes the filename and local path, runs the
`try` block, then the `finally` block closes `sftp_client` (if non-`None`)
and then `ssh_client` (if non-`None`). -/
def backup (self : Config) (env : String → Option String) (w : World)
    (now : PyDateTime) : RunResult :=
  let backup_file := generate_backup_filename self now
  let local_path := pyPathJoin self.local_backup_dir backup_file
  let b := backupBody self env w backup_file local_path
  { b with
    events := b.events
      ++ ((if b.sftpOpened then [Event.sftpClose] else [])
          ++ (if b.sshOpened then [Event.sshClose] else [])) }

/-! ### Concrete sample data for instantiations -/

/-- A fully-populated environment snapshot. -/
def envSample : String → Option String := fun k =>
  if k = "SSH_HOST" then some "db.example.com"
  else if k = "SSH_USER" then some "deploy"
  else if k = "SSH_KEY_PATH" then some "/home/deploy/.ssh/id_rsa"
  else if k = "DB_NAME" then some "orders"
  else if k = "DB_USER" then some "backup"
  else none

/-- The configuration `__init__` builds from `envSample`. -/
def cfgSample : Config :=
  { ssh_host := some "db.example.com", ssh_port := 22, ssh_user := some "deploy",
    ssh_key_path := some "/home/deploy/.ssh/id_rsa", db_host := "localhost",
    db_port := "3306", db_name := some "orders", db_user := some "backup",
    db_password := none, remote_backup_dir := "/tmp", local_backup_dir := "./backups" }

/-- A world in which every external operation succeeds. -/
def worldAllOk : World :=
  { fs_exists := fun _ => true, connect_ok := true, exit_status := 0,
    stderr_text := "", open_sftp_ok := true, get_ok := true, remove_ok := true,
    getsize_ok := true, file_size := 1048576 }

/-- A sample clock reading. -/
def nowSample : PyDateTime := ⟨2026, 10, 12, 3, 4, 5⟩

/-- Environment with every required value unset (only the key path given). -/
def envMissingRequired : String → Option String := fun k =>
  if k = "SSH_KEY_PATH" then some "/home/deploy/.ssh/id_rsa" else none

/-- The configuration `__init__` builds from `envMissingRequired`: all
required values are `None`, yet construction succeeds. -/
def cfgMissingRequired : Config :=
  { ssh_host := none, ssh_port := 22, ssh_user := none,
    ssh_key_path := some "/home/deploy/.ssh/id_rsa", db_host := "localhost",
    db_port := "3306", db_name := none, db_user := none, db_password := none,
    remote_backup_dir := "/tmp", local_backup_dir := "./backups" }

/-- World where the remote dump command exits with status 1. -/
def worldBadExit : World :=
  { worldAllOk with exit_status := 1, stderr_text := "Access denied" }

/-- World where the remote deletion fails. -/
def worldBadRemove : World := { worldAllOk with remove_ok := false }

/-- World whose filesystem has no files at all. -/
def worldNoKey : World := { worldAllOk with fs_exists := fun _ => false }

/-- Environment that sets `REMOVE_REMOTE_BACKUP=1`. -/
def envRemoveOne : String → Option String := fun k =>
  if k = "REMOVE_REMOTE_BACKUP" then some "1" else envSample k

/-! ### Decimal-rendering lemmas (for the timestamp shape) -/

theorem decDigits_lt (n : Nat) (h : n < 10) : decDigits n = [Nat.digitChar n] := by
  rw [decDigits, dif_pos h]

theorem decDigits_ge (n : Nat) (h : ¬ n < 10) :
    decDigits n = decDigits (n / 10) ++ [Nat.digitChar (n % 10)] := by
  rw [decDigits, dif_neg h]

theorem toDigitsCore_eq_decDigits :
    ∀ (f n : Nat) (l : List Char), n < f →
      Nat.toDigitsCore 10 f n l = decDigits n ++ l := by
  intro f
  induction f with
  | zero => intro n l h; omega
  | succ f ih =>
    intro n l h
    by_cases h10 : n / 10 = 0
    · have hn : n < 10 := by omega
      simp only [Nat.toDigitsCore, h10, if_pos]
      rw [decDigits_lt n hn, Nat.mod_eq_of_lt hn]
      rfl
    · have hn : ¬ n < 10 := by omega
      simp only [Nat.toDigitsCore, h10, if_neg, not_false_iff]
      rw [ih (n / 10) _ (by omega), decDigits_ge n hn]
      simp

theorem repr_eq_decDigits (n : Nat) : Nat.repr n = (decDigits n).asString := by
  unfold Nat.repr Nat.toDigits
  rw [toDigitsCore_eq_decDigits (n + 1) n [] (Nat.lt_succ_self n), List.append_nil]

theorem digitChar_isDigit : ∀ n, n < 10 → (Nat.digitChar n).isDigit = true := by decide

theorem decDigits_all_isDigit (n : Nat) : (decDigits n).all Char.isDigit = true := by
  induction n using Nat.strong_induction_on with
  | _ n ih =>
    by_cases h : n < 10
    · rw [decDigits_lt n h]
      simp [digitChar_isDigit n h]
    · have hd : n / 10 < n := Nat.div_lt_self (by omega) (by omega)
      rw [decDigits_ge n h]
      simp [ih (n / 10) hd, digitChar_isDigit (n % 10) (by omega)]

theorem decDigits_length (k : Nat) :
    ∀ n, 10 ^ k ≤ n → n < 10 ^ (k + 1) → (decDigits n).length = k + 1 := by
  induction k with
  | zero =>
    intro n _ h2
    rw [pow_one] at h2
    rw [decDigits_lt n h2]
    rfl
  | succ k ih =>
    intro n h1 h2
    have hge : (10 : Nat) ≤ 10 ^ (k + 1) := by
      calc (10 : Nat) = 10 ^ 1 := (pow_one 10).symm
      _ ≤ 10 ^ (k + 1) := Nat.pow_le_pow_right (by omega) (by omega)
    have h10 : ¬ n < 10 := by omega
    rw [decDigits_ge n h10, List.length_append]
    have hdiv : (decDigits (n / 10)).length = k + 1 := by
      apply ih
      · rw [Nat.le_div_iff_mul_le (by omega)]
        have : 10 ^ k * 10 = 10 ^ (k + 1) := (pow_succ 10 k).symm
        omega
      · rw [Nat.div_lt_iff_lt_mul (by omega)]
        have : 10 ^ (k + 1) * 10 = 10 ^ (k + 2) := (pow_succ 10 (k + 1)).symm
        omega
    simp [hdiv]

theorem repr_length_lt10 (n : Nat) (h : n < 10) : (Nat.repr n).length = 1 := by
  rw [repr_eq_decDigits, decDigits_lt n h]
  rfl

theorem repr_length_two (n : Nat) (h1 : 10 ≤ n) (h2 : n < 100) :
    (Nat.repr n).length = 2 := by
  rw [repr_eq_decDigits]
  have h : (decDigits n).length = 2 := decDigits_length 1 n (by omega) (by omega)
  simpa [List.asString, String.length] using h

theorem repr_length_four (n : Nat) (h1 : 1000 ≤ n) (h2 : n ≤ 9999) :
    (Nat.repr n).length = 4 := by
  rw [repr_eq_decDigits]
  have h : (decDigits n).length = 4 := decDigits_length 3 n (by omega) (by omega)
  simpa [List.asString, String.length] using h

theorem repr_all_isDigit (n : Nat) : (Nat.repr n).data.all Char.isDigit = true := by
  rw [repr_eq_decDigits]
  simpa [List.asString] using decDigits_all_isDigit n

theorem pad2_length (n : Nat) (h : n < 100) : (pad2 n).length = 2 := by
  rw [pad2]
  by_cases h10 : n < 10
  · rw [if_pos h10, String.length_append, repr_length_lt10 n h10]
    rfl
  · rw [if_neg h10, repr_length_two n (by omega) h]

theorem pad2_all_isDigit (n : Nat) :
    (pad2 n).data.all Char.isDigit = true := by
  rw [pad2]
  by_cases h10 : n < 10
  · rw [if_pos h10, String.data_append, List.all_append, repr_all_isDigit]
    rfl
  · rw [if_neg h10, repr_all_isDigit]

/-! ### Claim theorems: command and filename shape -/

/-- Claim C1: for every configuration and backup filename, the generated remote
command is a single `mysqldump` invocation carrying exactly the configured
database host after `-h`, port after `-P`, and user after `-u`, then an
inline `-p'<password>'` flag exactly when a (truthy) password is
configured, then the database name and a redirection to
`<remote_backup_dir>/<backup_file>`; the returned remote path is that same
redirection target. -/
theorem create_backup_command_shape (self : Config) (backup_file : String) :
    (create_backup_command self backup_file).2
      = self.remote_backup_dir ++ "/" ++ backup_file ∧
    (create_backup_command self backup_file).1
      = "mysqldump -h " ++ self.db_host ++ " -P " ++ self.db_port
          ++ " -u " ++ pyStr self.db_user ++ " "
          ++ (if pyTruthy self.db_password
              then "-p'" ++ pyStr self.db_password ++ "' " else "")
          ++ pyStr self.db_name ++ " > "
          ++ (self.remote_backup_dir ++ "/" ++ backup_file) := by
  refine ⟨rfl, ?_⟩
  unfold create_backup_command
  by_cases h : pyTruthy self.db_password = true
  · simp [h, String.append_assoc]
  · simp [eq_false_of_ne_true h, String.append_assoc]

/-- Claim C10: a configured-but-empty password behaves exactly like an absent
one — the command built with `db_password = some ""` is identical to the
command built with `db_password = none` (the Python check is on
truthiness, not key presence). -/
theorem create_backup_command_empty_password (self : Config)
    (backup_file : String) :
    create_backup_command { self with db_password := some "" } backup_file
      = create_backup_command { self with db_password := none } backup_file := rfl

/-- Claim C8: for every run (any configuration; any clock reading with a
four-digit year and in-range calendar fields, as `datetime.now()`
produces), the generated filename is exactly
`<db_name>_backup_<date>_<time>.sql` where `<date>` is eight decimal
digits (`YYYYMMDD`) and `<time>` six decimal digits (`HHMMSS`) of the
moment of generation — a 14-digit second-granularity timestamp. -/
theorem generate_backup_filename_shape (self : Config) (now : PyDateTime)
    (hy1 : 1000 ≤ now.year) (hy2 : now.year ≤ 9999)
    (hmo : now.month ≤ 12) (hd : now.day ≤ 31) (hh : now.hour ≤ 23)
    (hmi : now.minute ≤ 59) (hs : now.second ≤ 59) :
    ∃ date time : String,
      generate_backup_filename self now
        = pyStr self.db_name ++ "_backup_" ++ (date ++ "_" ++ time) ++ ".sql" ∧
      date.length = 8 ∧ time.length = 6 ∧
      date.data.all Char.isDigit = true ∧ time.data.all Char.isDigit = true := by
  refine ⟨Nat.repr now.year ++ pad2 now.month ++ pad2 now.day,
          pad2 now.hour ++ pad2 now.minute ++ pad2 now.second, rfl, ?_, ?_, ?_, ?_⟩
  · rw [String.length_append, String.length_append,
      repr_length_four now.year hy1 hy2,
      pad2_length now.month (by omega), pad2_length now.day (by omega)]
  · rw [String.length_append, String.length_append,
      pad2_length now.hour (by omega), pad2_length now.minute (by omega),
      pad2_length now.second (by omega)]
  · rw [String.data_append, String.data_append, List.all_append, List.all_append,
      repr_all_isDigit, pad2_all_isDigit now.month, pad2_all_isDigit now.day]
    rfl
  · rw [String.data_append, String.data_append, List.all_append, List.all_append,
      pad2_all_isDigit now.hour, pad2_all_isDigit now.minute,
      pad2_all_isDigit now.second]
    rfl

/-- Witness for claim C8 at a concrete configuration and clock reading. -/
theorem generate_backup_filename_shape_witness :
    ∃ date time : String,
      generate_backup_filename cfgSample nowSample
        = pyStr cfgSample.db_name ++ "_backup_" ++ (date ++ "_" ++ time) ++ ".sql" ∧
      date.length = 8 ∧ time.length = 6 ∧
      date.data.all Char.isDigit = true ∧ time.data.all Char.isDigit = true :=
  generate_backup_filename_shape cfgSample nowSample (by decide) (by decide)
    (by decide) (by decide) (by decide) (by decide) (by decide)

/-! ### Orchestration helper lemmas -/

theorem create_ssh_client_events (self : Config) (w : World) :
    (create_ssh_client self w).2 = [] ∨
    (create_ssh_client self w).2 = [Event.connect] := by
  unfold create_ssh_client
  split
  · exact Or.inl rfl
  · split
    · exact Or.inr rfl
    · exact Or.inr rfl

theorem create_ssh_client_key_fail (self : Config) (w : World)
    (h : (!pyTruthy self.ssh_key_path
        || !w.fs_exists (self.ssh_key_path.getD "")) = true) :
    create_ssh_client self w
      = (.error (.valueError ("SSH key not found at: " ++ pyStr self.ssh_key_path)),
         []) := by
  unfold create_ssh_client
  rw [if_pos h]

theorem create_ssh_client_ok (self : Config) (w : World)
    (hkey : pyTruthy self.ssh_key_path = true)
    (hfs : w.fs_exists (self.ssh_key_path.getD "") = true)
    (hconn : w.connect_ok = true) :
    create_ssh_client self w = (.ok (), [Event.connect]) := by
  simp [create_ssh_client, hkey, hfs, hconn]

theorem backupBody_events_no_close (self : Config) (env : String → Option String)
    (w : World) (bf lp : String) :
    Event.sftpClose ∉ (backupBody self env w bf lp).events ∧
    Event.sshClose ∉ (backupBody self env w bf lp).events := by
  cases hc : (!pyTruthy self.ssh_key_path
      || !w.fs_exists (self.ssh_key_path.getD "")) with
  | true =>
      have hsc := create_ssh_client_key_fail self w hc
      simp [backupBody, hsc]
  | false =>
      cases hconn : w.connect_ok with
      | false =>
          have hsc : create_ssh_client self w
              = (.error (.connectionError "Error connecting to SSH server"),
                 [Event.connect]) := by
            unfold create_ssh_client
            rw [if_neg (by simp [hc]), if_neg (by simp [hconn])]
          simp [backupBody, hsc]
      | true =>
          have hsc : create_ssh_client self w = (.ok (), [Event.connect]) := by
            unfold create_ssh_client
            rw [if_neg (by simp [hc]), if_pos hconn]
          simp only [backupBody, hsc]
          constructor <;> · repeat' split <;> try simp_all

/-- Trace of a run that reaches a successful download, regardless of the
cleanup flag and of the later outcomes. -/
theorem backup_events_after_download (self : Config) (env : String → Option String)
    (w : World) (now : PyDateTime)
    (hkey : pyTruthy self.ssh_key_path = true)
    (hfs : w.fs_exists (self.ssh_key_path.getD "") = true)
    (hconn : w.connect_ok = true)
    (hexit : w.exit_status = 0)
    (hopen : w.open_sftp_ok = true)
    (hget : w.get_ok = true) :
    (backup self env w now).events
      = [Event.connect,
         Event.execCommand (create_backup_command self (generate_backup_filename self now)).1,
         Event.sftpOpen,
         Event.sftpGet (create_backup_command self (generate_backup_filename self now)).2
           (pyPathJoin self.local_backup_dir (generate_backup_filename self now))]
        ++ (if removeRemoteFlag env
            then [Event.sftpRemove
                (create_backup_command self (generate_backup_filename self now)).2]
            else [])
        ++ [Event.sftpClose, Event.sshClose] := by
  have hsc := create_ssh_client_ok self w hkey hfs hconn
  cases hflag : removeRemoteFlag env <;>
    cases hrm : w.remove_ok <;> cases hgs : w.getsize_ok <;>
      simp [backup, backupBody, hsc, hexit, hopen, hget, hflag, hrm, hgs]

/-! ### Claim theorems: orchestration -/

/-- Claim C2: in every run where the remote dump command actually executes and
returns a nonzero exit status, the backup raises a fatal
`BackupCommandError` whose message is `"Backup command failed: "` followed
by the captured standard-error text (so it includes that text), and no
SFTP download request appears anywhere in the run's trace. -/
theorem backup_command_failure_no_download (self : Config)
    (env : String → Option String) (w : World) (now : PyDateTime)
    (hkey : pyTruthy self.ssh_key_path = true)
    (hfs : w.fs_exists (self.ssh_key_path.getD "") = true)
    (hconn : w.connect_ok = true)
    (hexit : w.exit_status ≠ 0) :
    (backup self env w now).result
        = .error (.backupCommandError ("Backup command failed: " ++ w.stderr_text)) ∧
    ∀ r l, Event.sftpGet r l ∉ (backup self env w now).events := by
  have hsc := create_ssh_client_ok self w hkey hfs hconn
  constructor
  · simp [backup, backupBody, hsc, hexit]
  · intro r l
    simp [backup, backupBody, hsc, hexit]

/-- Witness for claim C2: remote dump exits 1 with stderr `"Access denied"`. -/
theorem backup_command_failure_no_download_witness :
    (backup cfgSample envSample worldBadExit nowSample).result
        = .error (.backupCommandError
            ("Backup command failed: " ++ worldBadExit.stderr_text)) :=
  (backup_command_failure_no_download cfgSample envSample worldBadExit nowSample
    rfl rfl rfl (by decide)).1

/-- Claim C3: on every exit path whatsoever, the run's trace is its body trace
followed by exactly the `finally` closes: the transfer channel is closed
(once) iff it was opened, then the session is closed (once) iff it was
opened — channel before session — and no close request occurs anywhere
earlier in the trace. -/
theorem backup_releases_handles (self : Config) (env : String → Option String)
    (w : World) (now : PyDateTime) :
    ∃ pre,
      (backup self env w now).events
        = pre ++ ((if (backup self env w now).sftpOpened
              then [Event.sftpClose] else [])
            ++ (if (backup self env w now).sshOpened
              then [Event.sshClose] else []))
      ∧ Event.sftpClose ∉ pre ∧ Event.sshClose ∉ pre := by
  refine ⟨(backupBody self env w (generate_backup_filename self now)
      (pyPathJoin self.local_backup_dir (generate_backup_filename self now))).events,
    rfl, ?_, ?_⟩
  · exact (backupBody_events_no_close self env w _ _).1
  · exact (backupBody_events_no_close self env w _ _).2

/-- Claim C5: whenever the key material path is unset or refers to a
non-existent file, `create_ssh_client` raises the validation error the
spec calls `ConfigurationError` (the script's `ValueError`) and no
connection attempt appears in the trace. -/
theorem create_ssh_client_missing_key (self : Config) (w : World)
    (h : self.ssh_key_path = none ∨
      ∀ s, self.ssh_key_path = some s → w.fs_exists s = false) :
    (∃ msg, (create_ssh_client self w).1 = .error (.valueError msg) ∧
        (BErr.valueError msg).isConfigurationError = true) ∧
    Event.connect ∉ (create_ssh_client self w).2 := by
  have hcond : (!pyTruthy self.ssh_key_path
      || !w.fs_exists (self.ssh_key_path.getD "")) = true := by
    rcases h with h | h
    · simp [h, pyTruthy]
    · cases hk : self.ssh_key_path with
      | none => simp [pyTruthy]
      | some s =>
          by_cases hs : s = ""
          · simp [pyTruthy, hk, hs]
          · simp [pyTruthy, hk, hs, h s hk]
  rw [create_ssh_client_key_fail self w hcond]
  exact ⟨⟨_, rfl, rfl⟩, by simp⟩

/-- Witness for claim C5: a filesystem on which the configured key path does
not exist. -/
theorem create_ssh_client_missing_key_witness :
    (∃ msg, (create_ssh_client cfgSample worldNoKey).1
        = .error (.valueError msg) ∧
        (BErr.valueError msg).isConfigurationError = true) ∧
    Event.connect ∉ (create_ssh_client cfgSample worldNoKey).2 :=
  create_ssh_client_missing_key cfgSample worldNoKey (Or.inr fun _ _ => rfl)

/-- Claim C6: in every run whose download succeeds, if the cleanup flag is true
then exactly one deletion request is issued and every deletion request in
the trace targets exactly the remote path that was downloaded; if the flag
is false, no deletion request is issued at all. -/
theorem backup_cleanup_request (self : Config) (env : String → Option String)
    (w : World) (now : PyDateTime)
    (hkey : pyTruthy self.ssh_key_path = true)
    (hfs : w.fs_exists (self.ssh_key_path.getD "") = true)
    (hconn : w.connect_ok = true)
    (hexit : w.exit_status = 0)
    (hopen : w.open_sftp_ok = true)
    (hget : w.get_ok = true) :
    (removeRemoteFlag env = true →
      (backup self env w now).events.count
          (Event.sftpRemove
            (create_backup_command self (generate_backup_filename self now)).2) = 1 ∧
      ∀ p, Event.sftpRemove p ∈ (backup self env w now).events →
        p = (create_backup_command self (generate_backup_filename self now)).2) ∧
    (removeRemoteFlag env = false →
      ∀ p, Event.sftpRemove p ∉ (backup self env w now).events) := by
  rw [backup_events_after_download self env w now hkey hfs hconn hexit hopen hget]
  constructor
  · intro hflag
    rw [hflag]
    constructor
    · simp [List.count_append, List.count_cons]
    · intro p hp
      simp at hp
      exact hp
  · intro hflag
    rw [hflag]
    intro p
    simp

/-- Witness for claim C6: with `REMOVE_REMOTE_BACKUP` unset the flag defaults
to true and exactly one deletion request is issued. -/
theorem backup_cleanup_request_witness :
    (backup cfgSample envSample worldAllOk nowSample).events.count
        (Event.sftpRemove
          (create_backup_command cfgSample
            (generate_backup_filename cfgSample nowSample)).2) = 1 :=
  ((backup_cleanup_request cfgSample envSample worldAllOk nowSample
    rfl rfl rfl rfl rfl rfl).1 (by decide)).1

/-- Claim C7: in every run whose download succeeds but whose remote deletion
then fails, the run terminates with a fatal `RemoteCleanupError`, and the
already-downloaded local artifact is still among the run's local files
(nothing in the run removes or overwrites it). -/
theorem backup_cleanup_failure_keeps_local (self : Config)
    (env : String → Option String) (w : World) (now : PyDateTime)
    (hkey : pyTruthy self.ssh_key_path = true)
    (hfs : w.fs_exists (self.ssh_key_path.getD "") = true)
    (hconn : w.connect_ok = true)
    (hexit : w.exit_status = 0)
    (hopen : w.open_sftp_ok = true)
    (hget : w.get_ok = true)
    (hflag : removeRemoteFlag env = true)
    (hrm : w.remove_ok = false) :
    (∃ msg, (backup self env w now).result = .error (.remoteCleanupError msg)) ∧
    pyPathJoin self.local_backup_dir (generate_backup_filename self now)
      ∈ (backup self env w now).localFiles := by
  have hsc := create_ssh_client_ok self w hkey hfs hconn
  refine ⟨⟨"remove "
      ++ (create_backup_command self (generate_backup_filename self now)).2
      ++ " failed", ?_⟩, ?_⟩ <;>
    simp [backup, backupBody, hsc, hexit, hopen, hget, hflag, hrm]

/-- Witness for claim C7: deletion fails after a successful download. -/
theorem backup_cleanup_failure_keeps_local_witness :
    pyPathJoin cfgSample.local_backup_dir (generate_backup_filename cfgSample nowSample)
      ∈ (backup cfgSample envSample worldBadRemove nowSample).localFiles :=
  (backup_cleanup_failure_keeps_local cfgSample envSample worldBadRemove nowSample
    rfl rfl rfl rfl rfl rfl (by decide) rfl).2

/-- Claim C9: in every run whose download succeeds, a remote deletion request
is issued if and only if the `REMOVE_REMOTE_BACKUP` value (defaulting to
`"true"` when unset) lowercases to exactly the string `"true"` — so unset
means deletion, and values like `"1"` or `"yes"` mean no deletion. -/
theorem backup_remove_flag_semantics (self : Config)
    (env : String → Option String) (w : World) (now : PyDateTime)
    (hkey : pyTruthy self.ssh_key_path = true)
    (hfs : w.fs_exists (self.ssh_key_path.getD "") = true)
    (hconn : w.connect_ok = true)
    (hexit : w.exit_status = 0)
    (hopen : w.open_sftp_ok = true)
    (hget : w.get_ok = true) :
    (∃ p, Event.sftpRemove p ∈ (backup self env w now).events) ↔
      strLower (getenvD env "REMOVE_REMOTE_BACKUP" "true") = "true" := by
  rw [backup_events_after_download self env w now hkey hfs hconn hexit hopen hget]
  constructor
  · rintro ⟨p, hp⟩
    by_cases hflag : removeRemoteFlag env = true
    · have h2 : (strLower (getenvD env "REMOVE_REMOTE_BACKUP" "true")
          == "true") = true := hflag
      exact eq_of_beq h2
    · rw [eq_false_of_ne_true hflag] at hp
      simp at hp
  · intro heq
    have hflag : removeRemoteFlag env = true := by
      show (strLower (getenvD env "REMOVE_REMOTE_BACKUP" "true") == "true") = true
      rw [heq]
      exact beq_self_eq_true "true"
    rw [hflag]
    exact ⟨(create_backup_command self (generate_backup_filename self now)).2,
      by simp⟩

/-- Witness for claim C9: `REMOVE_REMOTE_BACKUP=1` — no deletion request. -/
theorem backup_remove_flag_semantics_witness :
    (∃ p, Event.sftpRemove p
        ∈ (backup cfgSample envRemoveOne worldAllOk nowSample).events) ↔
      strLower (getenvD envRemoveOne "REMOVE_REMOTE_BACKUP" "true") = "true" :=
  backup_remove_flag_semantics cfgSample envRemoveOne worldAllOk nowSample
    rfl rfl rfl rfl rfl rfl

/-- Counterexample for claim C4: with every required value (SSH host, SSH user,
database name, database user) absent from the environment, configuration
resolution succeeds with no validation error — all those fields are `None`
— and the run then proceeds all the way to a network connection attempt. -/
theorem init_missing_required_counterexample :
    databaseBackupInit envMissingRequired = .ok cfgMissingRequired ∧
    cfgMissingRequired.ssh_host = none ∧ cfgMissingRequired.ssh_user = none ∧
    cfgMissingRequired.db_name = none ∧ cfgMissingRequired.db_user = none ∧
    Event.connect
      ∈ (backup cfgMissingRequired envMissingRequired worldAllOk nowSample).events := by
  refine ⟨by rfl, rfl, rfl, rfl, rfl, by decide⟩

/-- Claim C4 (amended): configuration resolution itself validates none of the
required values — it succeeds whatever is absent or empty (its only
failure is a non-numeric `SSH_PORT`); of the required values only the SSH
key path is checked, at session-creation time, where a falsy or
non-existent path produces the validation error before any connection
attempt. -/
theorem init_no_required_validation (env : String → Option String)
    (hport : parsePort (env "SSH_PORT") ≠ none) :
    (∃ cfg, databaseBackupInit env = .ok cfg) ∧
    (∀ cfg w, databaseBackupInit env = .ok cfg →
      (!pyTruthy cfg.ssh_key_path
          || !w.fs_exists (cfg.ssh_key_path.getD "")) = true →
      (∃ msg, (create_ssh_client cfg w).1 = .error (.valueError msg)) ∧
      Event.connect ∉ (create_ssh_client cfg w).2) := by
  constructor
  · cases hp : parsePort (env "SSH_PORT") with
    | none => exact absurd hp hport
    | some p =>
        exact ⟨{ ssh_host := env "SSH_HOST", ssh_port := p,
                 ssh_user := env "SSH_USER", ssh_key_path := env "SSH_KEY_PATH",
                 db_host := getenvD env "DB_HOST" "localhost",
                 db_port := getenvD env "DB_PORT" "3306",
                 db_name := env "DB_NAME", db_user := env "DB_USER",
                 db_password := env "DB_PASSWORD",
                 remote_backup_dir := getenvD env "REMOTE_BACKUP_DIR" "/tmp",
                 local_backup_dir := getenvD env "LOCAL_BACKUP_DIR" "./backups" },
               by unfold databaseBackupInit; rw [hp]⟩
  · intro cfg w _ hcond
    rw [create_ssh_client_key_fail cfg w hcond]
    exact ⟨⟨_, rfl⟩, by simp⟩

/-- Witness for claim C4 (amended) at the all-required-values-absent
environment. -/
theorem init_no_required_validation_witness :
    ∃ cfg, databaseBackupInit envMissingRequired = .ok cfg :=
  (init_no_required_validation envMissingRequired (by decide)).1

end MySQLRemoteBackup
